import Mathlib

/- Shallow embedding of the viewport section tracker and supporting logic of a
single-page profile site.  Scroll offsets and element geometry are embedded as
rationals (the browser exposes them as numbers; the logic only compares and
adds them).  DOM geometry reads are embedded as a lookup in an association
list from element id to geometry, mirroring document.getElementById. -/

/- Geometric extent of a rendered page region, as read from the live layout:
offsetTop and offsetHeight of an element. -/
structure Geometry where
  offsetTop : ℚ
  offsetHeight : ℚ
deriving DecidableEq

/- The document, as the tracker observes it: which ids resolve to an element
and with what geometry. -/
abbrev Doc := List (String × Geometry)

/- Embedding of document.getElementById: first binding of the id wins, a
missing id yields none. -/
def getElementById : Doc → String → Option Geometry
  | [], _ => none
  | (i, g) :: rest, sid => if i = sid then some g else getElementById rest sid

/- The tracker state owned by the component: useState('home') for the active
section and useState(false) for the back-to-top affordance. -/
structure TrackerState where
  activeSectionId : String
  showBackToTop : Bool
deriving DecidableEq

/- The configured section sequence of the story-flavoured page. -/
def sections : List String :=
  ["home", "about", "journey", "works", "services", "articles", "contact"]

/- The configured section sequence of the classic-flavoured page. -/
def sectionsClassic : List String :=
  ["home", "about", "experience", "education", "projects", "services", "contact"]

/- Initial tracker state on mount. -/
def initialTracker : TrackerState :=
  { activeSectionId := "home", showBackToTop := false }

/- The for-loop body of handleScroll: walk the configured section ids in
order; for each, read the element (skipping ids with no element) and return
the first id whose extent contains the probe position; none if no id matches. -/
def findActive (doc : Doc) (scrollPosition : ℚ) : List String → Option String
  | [] => none
  | sid :: rest =>
    match getElementById doc sid with
    | some g =>
      if g.offsetTop ≤ scrollPosition ∧ scrollPosition < g.offsetTop + g.offsetHeight then
        some sid
      else findActive doc scrollPosition rest
    | none => findActive doc scrollPosition rest

/- Derived predicate: the id resolves to an element whose half-open extent
contains the probe position.  This is the containment test of the loop body. -/
def sectionContains (doc : Doc) (sid : String) (p : ℚ) : Bool :=
  match getElementById doc sid with
  | some g => decide (g.offsetTop ≤ p ∧ p < g.offsetTop + g.offsetHeight)
  | none => false

/- Embedding of handleScroll: compute the probe position
scrollY + innerHeight / 2, set showBackToTop to scrollY > 300, then set the
active section to the first configured section containing the probe, leaving
it unchanged when no section matches. -/
def handleScroll (secs : List String) (doc : Doc) (scrollY innerHeight : ℚ)
    (st : TrackerState) : TrackerState :=
  let scrollPosition := scrollY + innerHeight / 2
  let st1 := { st with showBackToTop := decide (scrollY > 300) }
  match findActive doc scrollPosition secs with
  | some sid => { st1 with activeSectionId := sid }
  | none => st1

/- Event-loop state around the scroll effect: the tracker state, the ticking
throttle flag, whether a requestAnimationFrame callback is scheduled but not
yet run, whether the scroll listener is attached, and a counter of how many
frame callbacks have been scheduled in total. -/
structure Machine where
  tracker : TrackerState
  ticking : Bool
  pendingFrame : Bool
  listenerAttached : Bool
  schedules : Nat
deriving DecidableEq

/- Embedding of throttledScroll: when ticking is not set, request an animation
frame (recorded by pendingFrame and the schedules counter) and set ticking;
when ticking is set, do nothing. -/
def throttledScroll (m : Machine) : Machine :=
  if m.ticking then m
  else { m with pendingFrame := true, ticking := true, schedules := m.schedules + 1 }

/- A scroll event reaches throttledScroll only while the listener is attached. -/
def dispatchScroll (m : Machine) : Machine :=
  if m.listenerAttached then throttledScroll m else m

/- The browser delivering the scheduled animation-frame callback: it runs
handleScroll against the live document and scroll position at delivery time,
then clears ticking.  The source schedules no guard and no cancellation, so
the callback runs whether or not the listener is still attached. -/
def runFrame (secs : List String) (doc : Doc) (scrollY innerHeight : ℚ)
    (m : Machine) : Machine :=
  if m.pendingFrame then
    { m with tracker := handleScroll secs doc scrollY innerHeight m.tracker,
             ticking := false, pendingFrame := false }
  else m

/- Embedding of the effect cleanup: it only removes the scroll listener.  It
does not cancel a pending animation frame and installs no mounted guard. -/
def teardown (m : Machine) : Machine :=
  { m with listenerAttached := false }

/- Machine state right after mount: listener attached, nothing pending. -/
def initMachine : Machine :=
  { tracker := initialTracker, ticking := false, pendingFrame := false,
    listenerAttached := true, schedules := 0 }

/- A smooth-scroll command issued to the window, with its target top. -/
inductive ScrollCommand where
  | smoothTo (top : ℚ)
deriving DecidableEq

/- Embedding of scrollToSection: resolve the id; when an element exists,
issue window.scrollTo at offsetTop - 80 with smooth behavior; otherwise do
nothing.  The result carries the (unchanged) tracker state, the issued
command if any, and the console messages emitted by the call.  The source
mutates no state and logs nothing on either path. -/
def scrollToSection (doc : Doc) (sectionId : String) (st : TrackerState) :
    TrackerState × Option ScrollCommand × List String :=
  match getElementById doc sectionId with
  | some g => (st, some (ScrollCommand.smoothTo (g.offsetTop - 80)), [])
  | none => (st, none, [])

/- One item of the rss2json response, as destructured by the map callback.
thumbnail and categories are optional at runtime (the code defends with
short-circuit defaults), so they are embedded as Option. -/
structure FeedItem where
  title : String
  link : String
  pubDate : String
  description : String
  thumbnail : Option String
  categories : Option (List String)
deriving DecidableEq

/- The Article record built for display. -/
structure Article where
  title : String
  link : String
  pubDate : String
  description : String
  thumbnail : String
  categories : List String
deriving DecidableEq

/- The decoded feed response body: a status string and an optional items
list (data.items may be absent). -/
structure FeedData where
  status : String
  items : Option (List FeedItem)
deriving DecidableEq

/- Component state touched by the articles effect, plus the console error
log that the catch handler appends to. -/
structure ArticlesState where
  articles : List Article
  articlesLoading : Bool
  errorLog : List String
deriving DecidableEq

/- Scan for the first unescaped closing angle bracket, returning the suffix
after it together with a bound used for termination; none when the rest of
the string has no closing bracket, in which case the regex does not match. -/
def findTagEnd : (l : List Char) → Option { r : List Char // r.length < l.length }
  | [] => none
  | c :: rest =>
    if c = '>' then some ⟨rest, by simp⟩
    else
      match findTagEnd rest with
      | some ⟨r, hr⟩ => some ⟨r, by simpa using Nat.lt_succ_of_lt hr⟩
      | none => none

/- Embedding of description.replace with the global tag pattern: at an
opening angle bracket with a later closing bracket, drop through the closing
bracket; an opening bracket with no later closing bracket stays, as the
pattern cannot match there; all other characters stay. -/
def stripTags : List Char → List Char
  | [] => []
  | c :: rest =>
    if c = '<' then
      match findTagEnd rest with
      | some r => stripTags r.1
      | none => c :: stripTags rest
    else c :: stripTags rest
termination_by l => l.length
decreasing_by
  · simpa using Nat.lt_succ_of_lt r.2
  · simp
  · simp

/- The map callback of fetchArticles: strip markup from the description,
keep its first 150 characters, append the ellipsis, and default a missing
thumbnail to the empty string and missing categories to the empty list. -/
def formatItem (item : FeedItem) : Article :=
  { title := item.title
    link := item.link
    pubDate := item.pubDate
    description := String.mk ((stripTags item.description.data).take 150) ++ "..."
    thumbnail := item.thumbnail.getD ""
    categories := item.categories.getD [] }

/- Embedding of the fetchArticles effect body: set loading, then either
receive a decoded response (storing the first six formatted items when the
status is ok and items are present, otherwise leaving articles alone) or an
error (caught and logged, articles untouched); the finally clause always
clears loading.  The function is total: no outcome escapes it. -/
def fetchArticles (result : Except String FeedData) (st : ArticlesState) : ArticlesState :=
  let st0 := { st with articlesLoading := true }
  match result with
  | Except.ok data =>
    let st1 :=
      if data.status = "ok" ∧ data.items.isSome = true then
        { st0 with articles := ((data.items.getD []).take 6).map formatItem }
      else st0
    { st1 with articlesLoading := false }
  | Except.error e =>
    { st0 with errorLog := st0.errorLog ++ ["Failed to fetch articles: " ++ e],
               articlesLoading := false }

/- Embedding of calculateYearsOfExperience.  getCachedDate reads the wall
clock, so the current year and month it returns are passed as arguments. -/
def calculateYearsOfExperience (currentYear currentMonth startYear startMonth : Int) : Int :=
  let years := currentYear - startYear
  let years2 := if currentMonth < startMonth then years - 1 else years
  max 0 years2

/- Tracker states reachable in a mounted view: the initial state, closed
under scroll recomputations against arbitrary observed documents and scroll
positions. -/
inductive ReachableTracker (secs : List String) : TrackerState → Prop
  | init : ReachableTracker secs initialTracker
  | step (doc : Doc) (scrollY innerHeight : ℚ) (st : TrackerState) :
      ReachableTracker secs st →
      ReachableTracker secs (handleScroll secs doc scrollY innerHeight st)

/- A concrete rendered document used to evaluate the tracker on explicit
inputs: three consecutive regions of height 800 starting at the top. -/
def demoDoc : Doc :=
  [("home", ⟨0, 800⟩), ("about", ⟨800, 800⟩), ("journey", ⟨1600, 800⟩)]

/- Articles state on mount: useState([]) and useState(true). -/
def initialArticles : ArticlesState :=
  { articles := [], articlesLoading := true, errorLog := [] }

/- A concrete feed item used to evaluate the consumer on explicit input. -/
def demoFeedItem : FeedItem :=
  { title := "t", link := "l", pubDate := "d",
    description := "hello <b>world</b>", thumbnail := none, categories := none }

/- A concrete successful feed response carrying eight items. -/
def demoFeed : FeedData :=
  { status := "ok", items := some (List.replicate 8 demoFeedItem) }

theorem findActive_cons (doc : Doc) (p : ℚ) (sid : String) (rest : List String) :
    findActive doc p (sid :: rest) =
      if sectionContains doc sid p = true then some sid else findActive doc p rest := by
  cases h : getElementById doc sid with
  | none => simp [findActive, sectionContains, h]
  | some g =>
    by_cases hc : g.offsetTop ≤ p ∧ p < g.offsetTop + g.offsetHeight <;>
      simp [findActive, sectionContains, h, hc]

theorem findActive_mem (doc : Doc) (p : ℚ) :
    ∀ secs : List String, ∀ s, findActive doc p secs = some s → s ∈ secs := by
  intro secs
  induction secs with
  | nil => intro s h; simp [findActive] at h
  | cons sid rest ih =>
    intro s h
    rw [findActive_cons] at h
    by_cases hc : sectionContains doc sid p = true
    · simp [hc] at h; simp [h]
    · simp [hc] at h
      exact List.mem_cons_of_mem _ (ih s h)

theorem findActive_none (doc : Doc) (p : ℚ) :
    ∀ secs : List String, (∀ t ∈ secs, sectionContains doc t p = false) →
      findActive doc p secs = none := by
  intro secs
  induction secs with
  | nil => intro _; rfl
  | cons sid rest ih =>
    intro h
    rw [findActive_cons]
    have h1 : sectionContains doc sid p = false := h sid (List.mem_cons_self _ _)
    simp [h1]
    exact ih fun t ht => h t (List.mem_cons_of_mem _ ht)

theorem findActive_unique (doc : Doc) (p : ℚ) (s : String) :
    ∀ secs : List String, s ∈ secs → sectionContains doc s p = true →
      (∀ t ∈ secs, sectionContains doc t p = true → t = s) →
      findActive doc p secs = some s := by
  intro secs
  induction secs with
  | nil => intro h; simp at h
  | cons sid rest ih =>
    intro hmem hin huniq
    rw [findActive_cons]
    by_cases hc : sectionContains doc sid p = true
    · have hss : sid = s := huniq sid (List.mem_cons_self _ _) hc
      subst hss
      simp [hc]
    · simp [hc]
      have hmem2 : s ∈ rest := by
        rcases List.mem_cons.mp hmem with h | h
        · exact absurd (h ▸ hin) hc
        · exact h
      exact ih hmem2 hin fun t ht => huniq t (List.mem_cons_of_mem _ ht)

theorem handleScroll_active (secs : List String) (doc : Doc) (scrollY innerHeight : ℚ)
    (st : TrackerState) :
    (handleScroll secs doc scrollY innerHeight st).activeSectionId =
      (findActive doc (scrollY + innerHeight / 2) secs).getD st.activeSectionId := by
  unfold handleScroll
  cases h : findActive doc (scrollY + innerHeight / 2) secs <;> simp [h]

theorem handleScroll_backToTop (secs : List String) (doc : Doc) (scrollY innerHeight : ℚ)
    (st : TrackerState) :
    (handleScroll secs doc scrollY innerHeight st).showBackToTop = decide (scrollY > 300) := by
  unfold handleScroll
  cases h : findActive doc (scrollY + innerHeight / 2) secs <;> simp [h]

/-- C1: for every scroll position whose probe position
scrollY + innerHeight / 2 lies inside exactly one configured section's extent
[offsetTop, offsetTop + offsetHeight), handleScroll sets activeSectionId to
that section's id; since the match is unique, it is also the first match in
the configured order. -/
theorem C1_unique_section_selected (secs : List String) (doc : Doc)
    (scrollY innerHeight : ℚ) (st : TrackerState) (s : String)
    (hmem : s ∈ secs)
    (hin : sectionContains doc s (scrollY + innerHeight / 2) = true)
    (huniq : ∀ t ∈ secs, sectionContains doc t (scrollY + innerHeight / 2) = true → t = s) :
    (handleScroll secs doc scrollY innerHeight st).activeSectionId = s := by
  rw [handleScroll_active, findActive_unique doc _ s secs hmem hin huniq]
  rfl

/-- Witness for C1: in the demo document the probe position 650 + 300 / 2 = 800
lies only in the extent of the about region, and handleScroll selects it. -/
theorem C1_witness :
    ("about" ∈ sections) ∧
    sectionContains demoDoc "about" (650 + 300 / 2) = true ∧
    (∀ t ∈ sections, sectionContains demoDoc t (650 + 300 / 2) = true → t = "about") ∧
    (handleScroll sections demoDoc 650 300 initialTracker).activeSectionId = "about" :=
  ⟨by decide,
   by (simp [sectionContains, getElementById, demoDoc]; norm_num),
   by (simp [sections, sectionContains, getElementById, demoDoc]; norm_num),
   C1_unique_section_selected sections demoDoc 650 300 initialTracker "about"
     (by decide)
     (by (simp [sectionContains, getElementById, demoDoc]; norm_num))
     (by (simp [sections, sectionContains, getElementById, demoDoc]; norm_num))⟩

/-- C2: when the probe position lies in no configured section's extent,
handleScroll leaves activeSectionId exactly as it was: the sticky fallback
never resets it to a default and never clears it. -/
theorem C2_sticky_fallback (secs : List String) (doc : Doc)
    (scrollY innerHeight : ℚ) (st : TrackerState)
    (hnone : ∀ t ∈ secs, sectionContains doc t (scrollY + innerHeight / 2) = false) :
    (handleScroll secs doc scrollY innerHeight st).activeSectionId = st.activeSectionId := by
  rw [handleScroll_active, findActive_none doc _ secs hnone]
  rfl

/-- Witness for C2: probe position 2350 + 300 / 2 = 2500 lies past every demo
region, and the active section stays what it was. -/
theorem C2_witness :
    (∀ t ∈ sections, sectionContains demoDoc t (2350 + 300 / 2) = false) ∧
    (handleScroll sections demoDoc 2350 300 initialTracker).activeSectionId =
      initialTracker.activeSectionId :=
  ⟨by (simp [sections, sectionContains, getElementById, demoDoc]; norm_num),
   C2_sticky_fallback sections demoDoc 2350 300 initialTracker
     (by (simp [sections, sectionContains, getElementById, demoDoc]; norm_num))⟩

/-- C8: after every recomputation showBackToTopAffordance holds exactly when
the scroll offset exceeds 300, in particular it is false at 299 and at the
boundary 300 and true at 301. -/
theorem C8_backToTop_threshold (secs : List String) (doc : Doc)
    (scrollY innerHeight : ℚ) (st : TrackerState) :
    ((handleScroll secs doc scrollY innerHeight st).showBackToTop = true ↔ 300 < scrollY) ∧
    (handleScroll secs doc 299 innerHeight st).showBackToTop = false ∧
    (handleScroll secs doc 300 innerHeight st).showBackToTop = false ∧
    (handleScroll secs doc 301 innerHeight st).showBackToTop = true := by
  refine ⟨?_, ?_, ?_, ?_⟩ <;> simp [handleScroll_backToTop] <;> norm_num

theorem dispatchScroll_ticking (m : Machine) (h : m.ticking = true) :
    dispatchScroll m = m := by
  unfold dispatchScroll throttledScroll
  simp [h]

theorem dispatchScroll_iterate_ticking (m : Machine) (h : m.ticking = true) :
    ∀ k, dispatchScroll^[k] m = m := by
  intro k
  induction k with
  | zero => rfl
  | succ k ih => rw [Function.iterate_succ_apply, dispatchScroll_ticking m h, ih]

/-- C3: N scroll events dispatched within a single frame, starting with the
throttle flag clear and the listener attached, schedule exactly one animation
frame callback and run no recomputation within the frame; and while ticking
is set, further scroll events leave the machine untouched. -/
theorem C3_frame_coalescing (m : Machine) (n : Nat) (hn : 1 ≤ n)
    (hatt : m.listenerAttached = true) (htick : m.ticking = false) :
    (dispatchScroll^[n] m).schedules = m.schedules + 1 ∧
    (dispatchScroll^[n] m).pendingFrame = true ∧
    (dispatchScroll^[n] m).tracker = m.tracker ∧
    (∀ m2 : Machine, m2.ticking = true → throttledScroll m2 = m2) := by
  obtain ⟨k, rfl⟩ : ∃ k, n = k + 1 := ⟨n - 1, (Nat.succ_pred_eq_of_pos hn).symm⟩
  have h1 : dispatchScroll m =
      { m with pendingFrame := true, ticking := true, schedules := m.schedules + 1 } := by
    unfold dispatchScroll throttledScroll
    simp [hatt, htick]
  rw [Function.iterate_succ_apply, h1, dispatchScroll_iterate_ticking _ rfl]
  refine ⟨rfl, rfl, rfl, ?_⟩
  intro m2 h2
  unfold throttledScroll
  simp [h2]

/-- Witness for C3: fifty synchronous scroll events on the freshly mounted
machine schedule exactly one frame callback. -/
theorem C3_witness :
    1 ≤ 50 ∧ initMachine.listenerAttached = true ∧ initMachine.ticking = false ∧
    (dispatchScroll^[50] initMachine).schedules = initMachine.schedules + 1 :=
  ⟨by decide, rfl, rfl,
   (C3_frame_coalescing initMachine 50 (by decide) rfl rfl).1⟩

/-- C9: activeSectionId starts as the first configured section id, namely
home, and in every reachable tracker state it is an element of the configured
section sequence; moreover a single recomputation either leaves it unchanged
or assigns an id drawn from the sequence. -/
theorem C9_active_section_invariant (secs : List String) (hhome : "home" ∈ secs) :
    sections.head? = some "home" ∧
    sectionsClassic.head? = some "home" ∧
    initialTracker.activeSectionId = "home" ∧
    (∀ st, ReachableTracker secs st → st.activeSectionId ∈ secs) ∧
    (∀ (doc : Doc) (scrollY innerHeight : ℚ) (st : TrackerState),
      (handleScroll secs doc scrollY innerHeight st).activeSectionId = st.activeSectionId ∨
      (handleScroll secs doc scrollY innerHeight st).activeSectionId ∈ secs) := by
  have hstep : ∀ (doc : Doc) (scrollY innerHeight : ℚ) (st : TrackerState),
      (handleScroll secs doc scrollY innerHeight st).activeSectionId = st.activeSectionId ∨
      (handleScroll secs doc scrollY innerHeight st).activeSectionId ∈ secs := by
    intro doc scrollY innerHeight st
    rw [handleScroll_active]
    cases h : findActive doc (scrollY + innerHeight / 2) secs with
    | none => left; rfl
    | some sid => right; exact findActive_mem doc _ secs sid h
  refine ⟨rfl, rfl, rfl, ?_, hstep⟩
  intro st hreach
  induction hreach with
  | init => exact hhome
  | step doc scrollY innerHeight st2 _ ih =>
    rcases hstep doc scrollY innerHeight st2 with h | h
    · rw [h]; exact ih
    · exact h

/-- Witness for C9: the configured story sequence contains home, and the
initial tracker state is reachable with its active id in the sequence. -/
theorem C9_witness :
    ("home" ∈ sections) ∧ initialTracker.activeSectionId ∈ sections :=
  ⟨by decide,
   (C9_active_section_invariant sections (by decide)).2.2.2.1
     initialTracker ReachableTracker.init⟩

/-- C10: for any cached current date and any start month in 1..12,
calculateYearsOfExperience returns the claimed clamped difference and is
never negative, even for a start year in the future. -/
theorem C10_years_of_experience (cy cm sy sm : Int) (_h1 : 1 ≤ sm) (_h2 : sm ≤ 12) :
    calculateYearsOfExperience cy cm sy sm =
      max 0 (cy - sy - (if cm < sm then 1 else 0)) ∧
    0 ≤ calculateYearsOfExperience cy cm sy sm := by
  unfold calculateYearsOfExperience
  constructor
  · by_cases h : cm < sm <;> simp [h]
  · exact le_max_left 0 _

/-- Witness for C10: a start in January 2025 against a cached date of May
2020 lies in the future and still yields a non-negative count. -/
theorem C10_witness :
    (1 : Int) ≤ 1 ∧ (1 : Int) ≤ 12 ∧
    (calculateYearsOfExperience 2020 5 2025 1 =
      max 0 (2020 - 2025 - (if (5 : Int) < 1 then 1 else 0)) ∧
     0 ≤ calculateYearsOfExperience 2020 5 2025 1) :=
  ⟨by decide, by decide, C10_years_of_experience 2020 5 2025 1 (by decide) (by decide)⟩

/-- C4 counterexample: calling scrollToSection with an id absent from the
document is a silent no-op.  It does leave the tracker state unchanged and
issues no scroll command, but it emits no console message at all, so no
NavigationTargetNotFound is raised or logged, contrary to the claim. -/
theorem C4_counterexample :
    scrollToSection demoDoc "nonexistent" initialTracker = (initialTracker, none, []) ∧
    ¬ ("NavigationTargetNotFound" ∈ (scrollToSection demoDoc "nonexistent" initialTracker).2.2) := by
  constructor
  · rfl
  · intro h
    simp [scrollToSection, getElementById, demoDoc] at h

/-- C4 amended: scrollToSection with an id whose element exists issues a
smooth-scroll command to offsetTop - 80 and leaves the tracker state
unchanged; with an id that resolves to no element it leaves the tracker
state unchanged, issues no command, and logs nothing (silent no-op rather
than a logged NavigationTargetNotFound). -/
theorem C4_navigate_amended (doc : Doc) (sid : String) (st : TrackerState) :
    (∀ g, getElementById doc sid = some g →
      scrollToSection doc sid st = (st, some (ScrollCommand.smoothTo (g.offsetTop - 80)), [])) ∧
    (getElementById doc sid = none →
      scrollToSection doc sid st = (st, none, [])) := by
  constructor
  · intro g hg
    unfold scrollToSection
    rw [hg]
  · intro hnone
    unfold scrollToSection
    rw [hnone]

/-- Witness for C4: in the demo document, navigating to the about region
commands a smooth scroll to 800 - 80 = 720, and navigating to an id with no
element is a silent no-op. -/
theorem C4_navigate_witness :
    scrollToSection demoDoc "about" initialTracker =
      (initialTracker, some (ScrollCommand.smoothTo (800 - 80)), []) ∧
    scrollToSection demoDoc "nonexistent" initialTracker = (initialTracker, none, []) :=
  ⟨(C4_navigate_amended demoDoc "about" initialTracker).1 ⟨800, 800⟩ (by
      simp [getElementById, demoDoc]),
   (C4_navigate_amended demoDoc "nonexistent" initialTracker).2 (by
      simp [getElementById, demoDoc])⟩

/-- C5: the claim demands that a frame callback still pending at teardown
must not mutate the tracker state once it fires.  The cleanup only removes
the scroll listener; it neither cancels the pending animation frame nor
guards the deferred callback with a mounted check, so the late callback
still runs handleScroll and changes the tracker state: with a pending frame,
scroll offset 600 and viewport height 400 against the demo document, the
probe position 800 moves the active section from home to about after
teardown. -/
theorem C5_late_frame_mutates :
    ((runFrame sections demoDoc 600 400
        (teardown { tracker := initialTracker, ticking := true, pendingFrame := true,
                    listenerAttached := true, schedules := 1 })).tracker ≠ initialTracker) ∧
    (runFrame sections demoDoc 600 400
        (teardown { tracker := initialTracker, ticking := true, pendingFrame := true,
                    listenerAttached := true, schedules := 1 })).tracker.activeSectionId
      = "about" := by
  have h : (runFrame sections demoDoc 600 400
      (teardown { tracker := initialTracker, ticking := true, pendingFrame := true,
                  listenerAttached := true, schedules := 1 })).tracker.activeSectionId
      = "about" := by
    have hfind : findActive demoDoc (600 + 400 / 2) sections = some "about" :=
      findActive_unique demoDoc (600 + 400 / 2) "about" sections (by decide)
        (by (simp [sectionContains, getElementById, demoDoc]; norm_num))
        (by (simp [sections, sectionContains, getElementById, demoDoc]; norm_num))
    unfold runFrame teardown
    simp only
    rw [if_pos trivial]
    simp only
    rw [handleScroll_active, hfind]
    rfl
  refine ⟨?_, h⟩
  intro hcontra
  rw [hcontra] at h
  simp [initialTracker] at h

/-- C6: on a successful feed response with status ok and an items list of any
length, fetchArticles stores exactly the first six items in feed order (at
most six records), and every stored description, built as the tag-stripped
text cut to 150 characters plus the three-character ellipsis, is at most 153
characters long. -/
theorem C6_articles_truncation (data : FeedData) (st : ArticlesState) (l : List FeedItem)
    (hstatus : data.status = "ok") (hitems : data.items = some l) :
    (fetchArticles (Except.ok data) st).articles = (l.take 6).map formatItem ∧
    (fetchArticles (Except.ok data) st).articles.length ≤ 6 ∧
    ∀ a ∈ (fetchArticles (Except.ok data) st).articles, a.description.length ≤ 153 := by
  have hcond : data.status = "ok" ∧ data.items.isSome = true := by
    refine ⟨hstatus, ?_⟩
    rw [hitems]
    rfl
  have harts : (fetchArticles (Except.ok data) st).articles = (l.take 6).map formatItem := by
    simp only [fetchArticles]
    rw [if_pos hcond, hitems]
    rfl
  refine ⟨harts, ?_, ?_⟩
  · rw [harts]
    simp only [List.length_map, List.length_take]
    omega
  · rw [harts]
    intro a ha
    rw [List.mem_map] at ha
    obtain ⟨item, _, rfl⟩ := ha
    show (String.mk ((stripTags item.description.data).take 150) ++ "...").length ≤ 153
    have htake : ((stripTags item.description.data).take 150).length ≤ 150 := by
      rw [List.length_take]
      exact min_le_left _ _
    calc (String.mk ((stripTags item.description.data).take 150) ++ "...").length
        = ((stripTags item.description.data).take 150).length + 3 := by
          rw [String.length_append]
          rfl
      _ ≤ 153 := by omega

/-- Witness for C6: the demo feed has status ok and eight items, and the
consumer keeps its first six with all descriptions within 153 characters. -/
theorem C6_witness :
    demoFeed.status = "ok" ∧
    demoFeed.items = some (List.replicate 8 demoFeedItem) ∧
    ((fetchArticles (Except.ok demoFeed) initialArticles).articles =
        ((List.replicate 8 demoFeedItem).take 6).map formatItem ∧
      (fetchArticles (Except.ok demoFeed) initialArticles).articles.length ≤ 6 ∧
      ∀ a ∈ (fetchArticles (Except.ok demoFeed) initialArticles).articles,
        a.description.length ≤ 153) :=
  ⟨rfl, rfl, C6_articles_truncation demoFeed initialArticles _ rfl rfl⟩

/-- C7: a failing fetch is absorbed inside fetchArticles, whose embedding is
a total function: the error is appended to the console log, the articles
list is exactly what it was (in particular an empty list stays empty, the
empty-state fallback), loading is cleared, and no failure value is returned
to the caller and no retry is performed. -/
theorem C7_fetch_failure_contained (e : String) (st : ArticlesState) :
    fetchArticles (Except.error e) st =
      { articles := st.articles, articlesLoading := false,
        errorLog := st.errorLog ++ ["Failed to fetch articles: " ++ e] } ∧
    ∀ (b : Bool) (log : List String),
      (fetchArticles (Except.error e)
        { articles := [], articlesLoading := b, errorLog := log }).articles = [] := by
  constructor
  · rfl
  · intro b log
    rfl
